import Mathlib

/-!
Verification development for the `API_Toolkits` repository.

The repository wires several market-data HTTP clients over a shared
`BaseAPIClient` (src/api_toolkits/base_client.py) whose `_make_request`
method is decorated with `@sleep_and_retry` and `@limits(calls=1, period=1)`
from the `ratelimit` package, plus a TwelveData websocket streaming client
(src/api_toolkits/twelvedata_toolkit/td_client.py).  This file gives a
shallow embedding of those parts: the `ratelimit` fixed-window limiter as a
pure state-passing function over discrete time, the request dispatcher
`_make_request` as a total function from transport results to outcomes, and
the websocket client's mutable attributes (`ws`, `_running`) together with
its `connect_websocket` / `subscribe` / `unsubscribe` / receive-loop
operations as pure state transformers over an explicit event list.
-/

namespace APIToolkits

/-! ## Configuration constants (src/api_toolkits/config.py) -/

/-- `APIConfig.FINNHUB_RATE_LIMIT = 60` — documented "Rate limits (requests
per minute)" in config.py. -/
def FINNHUB_RATE_LIMIT : Nat := 60

/-- `APIConfig.ALPHAVANTAGE_RATE_LIMIT = 5` requests per minute. -/
def ALPHAVANTAGE_RATE_LIMIT : Nat := 5

/-- `APIConfig.TWELVEDATA_RATE_LIMIT = 8` requests per minute. -/
def TWELVEDATA_RATE_LIMIT : Nat := 8

/-- `APIConfig.FINNHUB_BASE_URL` from config.py. -/
def FINNHUB_BASE_URL : String := "https://finnhub.io/api/v1"

/-- `APIConfig.ALPHAVANTAGE_BASE_URL` from config.py. -/
def ALPHAVANTAGE_BASE_URL : String := "https://www.alphavantage.co/query"

/-- `APIConfig.TWELVEDATA_BASE_URL` from config.py. -/
def TWELVEDATA_BASE_URL : String := "https://api.twelvedata.com"

/-- The window the per-minute limits in config.py refer to, in seconds. -/
def MINUTE_WINDOW : Nat := 60

/-! ## The rate limiter actually applied by the code

`BaseAPIClient._make_request` is decorated with
`@sleep_and_retry` and `@limits(calls=1, period=1)` (base_client.py lines
27–28, comment "Basic rate limiting").  These parameters are hardcoded; the
`calls_per_minute` constructor argument is stored on the instance but never
read by any limiting logic. -/

/-- The `calls` argument of the `@limits(calls=1, period=1)` decorator. -/
def basic_limit_calls : Nat := 1

/-- The `period` argument (seconds) of `@limits(calls=1, period=1)`. -/
def basic_limit_period : Nat := 1

/-- State of `ratelimit.RateLimitDecorator`: `last_reset` (the clock value
anchoring the current fixed window) and `num_calls` (calls counted in it).
At decorator creation `num_calls = 0` and `last_reset = clock()`. -/
structure LimiterState where
  lastReset : Nat
  numCalls : Nat
  deriving DecidableEq, Repr

/-- One `acquire` of the fixed-window limiter, for a single sequential
caller at discrete time `now` (seconds), following
`ratelimit.RateLimitDecorator.__call__`:

* `period_remaining = period - (now - last_reset)`; if it is `≤ 0` the
  window has expired: `num_calls` resets and `last_reset := now`, and the
  call is granted immediately;
* otherwise, if `num_calls + 1 ≤ calls` the call is granted immediately
  inside the current window;
* otherwise `RateLimitException(period_remaining)` is raised and the
  `sleep_and_retry` wrapper sleeps exactly `period_remaining` seconds —
  i.e. until `last_reset + period` — and retries; at that instant the
  window has expired, so the retry resets the window and is granted.

Returns the time at which the call is actually granted, and the state
after. -/
def acquire (maxCalls period : Nat) (now : Nat) (st : LimiterState) :
    Nat × LimiterState :=
  if period ≤ now - st.lastReset then
    (now, ⟨now, 1⟩)
  else if st.numCalls + 1 ≤ maxCalls then
    (now, ⟨st.lastReset, st.numCalls + 1⟩)
  else
    (st.lastReset + period, ⟨st.lastReset + period, 1⟩)

/-- Issue a sequence of calls through the limiter, one `acquire` per call,
taking each element of `arrivals` as the clock value at which that call
invokes the decorated method.  Returns the list of grant times and the
final limiter state. -/
def runCalls (maxCalls period : Nat) :
    List Nat → LimiterState → List Nat × LimiterState
  | [], st => ([], st)
  | t :: ts, st =>
    let g := acquire maxCalls period t st
    let r := runCalls maxCalls period ts g.2
    (g.1 :: r.1, r.2)

/-- Number of grant times falling in the rolling window
`[start, start + dur)`. -/
def countInWindow (grants : List Nat) (start dur : Nat) : Nat :=
  (grants.filter (fun t => decide (start ≤ t ∧ t < start + dur))).length

/-! ## The request dispatcher (`BaseAPIClient._make_request`)

`_make_request` performs `self.session.request(...)`, then
`response.raise_for_status()`, then `return response.json()`, inside
`try: ... except requests.exceptions.RequestException as e:
self.logger.error(...); raise`.

Library semantics embedded here:
* `Response.raise_for_status` raises `requests.exceptions.HTTPError` iff
  the status code is in 400–599 (4xx client errors and 5xx server
  errors); statuses outside that range — including 3xx such as 304 —
  raise nothing.
* transport-level failures (timeout, DNS, connection reset) surface from
  `session.request` as subclasses of `requests.exceptions.RequestException`
  (`ConnectionError`, `Timeout`, ...).
* `Response.json()` on an undecodable body raises
  `requests.exceptions.JSONDecodeError`, which since requests 2.27
  subclasses `InvalidJSONError`, itself a subclass of
  `requests.exceptions.RequestException`.

Consequently every one of those three exception classes is caught by the
`except requests.exceptions.RequestException` clause, logged via
`self.logger.error`, and re-raised unchanged.  The boolean carried by each
`raised*` constructor below records whether the escaping exception was
caught and logged by that handler before being re-raised. -/

/-- What `session.request` produced: either a response with a status code
and a raw body, or a transport-level failure (timeout, DNS failure,
connection reset) raised as an exception. -/
inductive TransportResult where
  | response (status : Nat) (body : String)
  | transportError (cause : String)
  deriving DecidableEq, Repr

/-- The observable outcome of one `_make_request` call.  `success` is the
returned decoded body; each `raised*` constructor is an exception escaping
the method, with the flag telling whether the `RequestException` handler
caught and logged it before re-raising. -/
inductive Outcome (J : Type) where
  | success (payload : J)
  | raisedHTTPError (status : Nat) (caughtAndLogged : Bool)
  | raisedTransportError (cause : String) (caughtAndLogged : Bool)
  | raisedJSONDecodeError (caughtAndLogged : Bool)
  deriving DecidableEq, Repr

/-- Shallow embedding of `BaseAPIClient._make_request` (base_client.py
lines 50–64), parameterized by the JSON decoder `decode` standing for
`json` decoding of the response body (`some` = well-formed, `none` =
`JSONDecodeError`). -/
def make_request_outcome {J : Type} (decode : String → Option J) :
    TransportResult → Outcome J
  | .transportError cause => .raisedTransportError cause true
  | .response status body =>
    if 400 ≤ status ∧ status < 600 then
      .raisedHTTPError status true
    else
      match decode body with
      | some payload => .success payload
      | none => .raisedJSONDecodeError true

/-- The spec's error taxonomy (spec.md section 7). -/
inductive FailureKind where
  | transport
  | httpStatus
  | decodeFailure
  | connectionClosed
  deriving DecidableEq, Repr

/-- The spec's `CallOutcome` tagged union (messages abstracted away; the
claims under verification are about the classification kinds). -/
inductive CallOutcome (J : Type) where
  | success (payload : J)
  | failure (kind : FailureKind)
  deriving DecidableEq, Repr

/-- Read an `_make_request` outcome through the spec's abstraction: a
raised exception escaping to the caller is the `Failure` of the
corresponding taxonomy kind. -/
def toCallOutcome {J : Type} : Outcome J → CallOutcome J
  | .success payload => .success payload
  | .raisedHTTPError _ _ => .failure .httpStatus
  | .raisedTransportError _ _ => .failure .transport
  | .raisedJSONDecodeError _ => .failure .decodeFailure

/-- Modelled from the spec's words for the dispatcher contract, amended to
what `raise_for_status` actually distinguishes: a 4xx/5xx status is an
`HttpStatus` failure, a transport error is a `Transport` failure, and any
other response is decoded — `Success` when the body parses, a `Decode`
failure when it does not.  Compared against the code-side
`make_request_outcome` in the refinement theorem. -/
def dispatcherSpecOutcome {J : Type} (decode : String → Option J) :
    TransportResult → CallOutcome J
  | .transportError _ => .failure .transport
  | .response status body =>
    if 400 ≤ status ∧ status < 600 then
      .failure .httpStatus
    else
      match decode body with
      | some payload => .success payload
      | none => .failure .decodeFailure

/-! ## Which request paths pass through the rate limiter

Each public request method of the HTTP clients either routes through
`_make_request` — whose decorators acquire a rate-limit slot before the
body runs — or issues `self.session.get(...)` directly.  We record the
sequence of externally visible request events each method performs. -/

/-- An event in a request method's trace: acquiring a slot from the
`@sleep_and_retry @limits(...)` decorators, or actually issuing an HTTP
request. -/
inductive ReqEvent where
  | acquireSlot
  | httpIssue (url : String) (params : List (String × String))
  deriving DecidableEq, Repr

/-- `endpoint.lstrip` of the slash character, as used in `_make_request`
to build `f"(base_url)/(endpoint.lstrip('/'))"`. -/
def lstripSlash (s : String) : String :=
  s.dropWhile (fun c => c = '/')

/-- Event trace of one `_make_request` call: the decorators acquire a
slot, then the request is issued against `base_url + "/" + endpoint`
(leading slashes of `endpoint` stripped) with the given query
parameters. -/
def make_request_events (base_url endpoint : String)
    (params : List (String × String)) : List ReqEvent :=
  [.acquireSlot, .httpIssue (base_url ++ "/" ++ lstripSlash endpoint) params]

/-- Trace of `AlphaVantageClient.get_global_quote` (av_client.py lines
281–297): routes through `_make_request`. -/
def get_global_quote_events (api_key symbol : String) : List ReqEvent :=
  make_request_events ALPHAVANTAGE_BASE_URL ""
    [("function", "GLOBAL_QUOTE"), ("symbol", symbol), ("apikey", api_key)]

/-- Trace of `FinnhubClient.get_quote` (finnhub_toolkit/client.py lines
44–56): routes through `_make_request`. -/
def finnhub_get_quote_events (symbol : String) : List ReqEvent :=
  make_request_events FINNHUB_BASE_URL "quote" [("symbol", symbol)]

/-- Trace of `AlphaVantageClient.get_listing_status` (av_client.py lines
198–228): builds its parameters and calls `self.session.get(self.base_url,
params=params)` directly — no `_make_request`, hence no rate-limit
acquisition. -/
def get_listing_status_events (api_key : String) (date : Option String)
    (state : String) : List ReqEvent :=
  let params := [("function", "LISTING_STATUS"), ("apikey", api_key),
    ("state", state)] ++ (match date with | some d => [("date", d)] | none => [])
  [.httpIssue ALPHAVANTAGE_BASE_URL params]

/-- Trace of `AlphaVantageClient.get_earnings_calendar` (av_client.py
lines 230–260): direct `self.session.get`, no rate-limit acquisition. -/
def av_get_earnings_calendar_events (api_key : String)
    (symbol : Option String) (horizon : String) : List ReqEvent :=
  let params := [("function", "EARNINGS_CALENDAR"), ("apikey", api_key),
    ("horizon", horizon)] ++
    (match symbol with | some s => [("symbol", s)] | none => [])
  [.httpIssue ALPHAVANTAGE_BASE_URL params]

/-- Trace of `AlphaVantageClient.get_ipo_calendar` (av_client.py lines
262–279): direct `self.session.get`, no rate-limit acquisition. -/
def get_ipo_calendar_events (api_key : String) : List ReqEvent :=
  [.httpIssue ALPHAVANTAGE_BASE_URL
    [("function", "IPO_CALENDAR"), ("apikey", api_key)]]

/-- `allIssuesAcquired acquired evs` holds when every `httpIssue` in `evs`
is preceded (somewhere earlier in the trace, `acquired` recording the
prefix before `evs`) by an `acquireSlot` — i.e. the request only goes out
after the rate limiter granted a slot. -/
def allIssuesAcquired (acquired : Bool) : List ReqEvent → Bool
  | [] => true
  | .acquireSlot :: rest => allIssuesAcquired true rest
  | .httpIssue _ _ :: rest => acquired && allIssuesAcquired acquired rest

/-! ## The TwelveData streaming client (td_client.py)

`TwelveDataClient.__init__` sets `self.ws = None` and
`self._running = False`; these two attributes are the client's entire
mutable streaming state — in particular there is no attribute recording a
desired-symbol set.  `connect_websocket`, `subscribe`, `unsubscribe`,
`close_websocket` and the receive loop of `start_websocket` are embedded
as pure state transformers below. -/

/-- A control message sent over the websocket.  The payload string is the
comma-joined symbol list placed in
`message["params"]["symbols"] = ",".join(symbols)` before
`json.dumps`. -/
inductive CtrlMsg where
  | sub (symbols : String)
  | unsub (symbols : String)
  deriving DecidableEq, Repr

/-- An open websocket connection, observed through the control messages
sent over it, in order. -/
structure WsConn where
  sent : List CtrlMsg
  deriving DecidableEq, Repr

/-- The mutable attributes of a `TwelveDataClient`: `self.ws` (the
websocket handle or `None`) and `self._running`. -/
structure TDState where
  ws : Option WsConn
  running : Bool
  deriving DecidableEq, Repr

/-- Client state right after `__init__`: `self.ws = None`,
`self._running = False`. -/
def initTDState : TDState := ⟨none, false⟩

/-- `TwelveDataClient.connect_websocket` (td_client.py lines 132–139):
`if self.ws is not None: return` — otherwise open a fresh connection and
set `_running = True`.  The boolean result records whether a new
connection was actually opened (`websockets.connect` called). -/
def connect_websocket (st : TDState) : TDState × Bool :=
  if st.ws.isSome then (st, false)
  else ({ ws := some ⟨[]⟩, running := true }, true)

/-- Python's `",".join(symbols)`. -/
def pyJoin : List String → String
  | [] => ""
  | [s] => s
  | s :: rest => s ++ "," ++ pyJoin rest

/-- `TwelveDataClient.subscribe` (td_client.py lines 141–160): if
`self.ws` is falsy, first `connect_websocket`; then send the
`"subscribe"` control message with the comma-joined symbols over the
connection.  (The `isinstance(symbols, str)` wrapping is modelled by
taking a list.)  The `none` branch after connecting is unreachable: the
connect above always installs a connection. -/
def subscribe (symbols : List String) (st : TDState) : TDState :=
  let st1 := if st.ws.isNone then (connect_websocket st).1 else st
  match st1.ws with
  | some conn =>
    { st1 with ws := some ⟨conn.sent ++ [CtrlMsg.sub (pyJoin symbols)]⟩ }
  | none => st1

/-- `TwelveDataClient.unsubscribe` (td_client.py lines 162–181): if
`self.ws` is falsy, return immediately without touching any state;
otherwise send the `"unsubscribe"` control message. -/
def unsubscribe (symbols : List String) (st : TDState) : TDState :=
  match st.ws with
  | none => st
  | some conn =>
    { st with ws := some ⟨conn.sent ++ [CtrlMsg.unsub (pyJoin symbols)]⟩ }

/-- `TwelveDataClient.close_websocket` (td_client.py lines 214–219): set
`_running = False`, close and null out the handle. -/
def close_websocket (_st : TDState) : TDState := ⟨none, false⟩

/-- Split a comma-joined symbol string back into symbols (how the
server side reads `params.symbols`); structural helper over the
character list. -/
def splitCommaAux : List Char → List Char → List (List Char)
  | [], cur => [cur.reverse]
  | c :: cs, cur =>
    if c = ',' then cur.reverse :: splitCommaAux cs []
    else splitCommaAux cs (c :: cur)

/-- Split on commas, producing a symbol list. -/
def splitSymbols (s : String) : List String :=
  (splitCommaAux s.data []).map (fun l => ⟨l⟩)

/-- Net effect of one control message on the set of live symbols. -/
def applyCtrl (acc : List String) : CtrlMsg → List String
  | .sub s => acc ++ (splitSymbols s).filter (fun x => ¬ acc.contains x)
  | .unsub s => acc.filter (fun x => ¬ (splitSymbols s).contains x)

/-- The subscription set effectively in force after a sequence of control
messages — the only place a "SubscriptionSet" exists for this client is
as the net effect of the messages it has sent. -/
def effectiveSet (msgs : List CtrlMsg) : List String :=
  msgs.foldl applyCtrl []

/-- The live symbol set implied by a client state: the net effect of the
control messages sent over its open connection, empty when
disconnected. -/
def liveSymbols (st : TDState) : List String :=
  match st.ws with
  | some conn => effectiveSet conn.sent
  | none => []

/-! ## The receive loop of `start_websocket` (td_client.py lines 196–212)

```
while self._running:
    try:
        message = await self.ws.recv()
        data = json.loads(message)
        await on_message(data)
    except Exception as e:
        if on_error:
            await on_error(e)
        else:
            print(f"WebSocket error: ...")
```

The loop body mutates no client state.  Each iteration consumes one
transport event: either `recv` returns a frame, or `recv` raises because
the peer closed the connection (`websockets` raises `ConnectionClosed` on
that call and on every later `recv` call).  A `json.loads` failure and a
`ConnectionClosed` alike land in the blanket `except Exception` clause,
which invokes `on_error` when registered (else prints a diagnostic) and
falls through to the next iteration of `while self._running`. -/

/-- One transport event observed by `self.ws.recv()`. -/
inductive WsEvent where
  | msg (raw : String)
  | closedByPeer
  deriving DecidableEq, Repr

/-- Observable output of one loop iteration: a decoded payload delivered
to `on_message`, an `on_error` invocation, or a diagnostic print when no
`on_error` is registered. -/
inductive LoopOut (J : Type) where
  | delivered (payload : J)
  | errorCb
  | loggedDiagnostic
  deriving DecidableEq, Repr

/-- The `while self._running` receive loop of `start_websocket`, run over
a finite prefix `evs` of transport events, with `decode` standing for
`json.loads` (`none` = raises) and `hasOnError` whether an `on_error`
callback was registered (callbacks themselves assumed not to raise).
Returns the outputs produced and the client state afterwards. -/
def websocket_receive_loop {J : Type} (decode : String → Option J)
    (hasOnError : Bool) : List WsEvent → TDState → List (LoopOut J) × TDState
  | evs, st =>
    if st.running then
      match evs with
      | [] => ([], st)
      | e :: rest =>
        let out : LoopOut J :=
          match e with
          | .closedByPeer =>
            if hasOnError then .errorCb else .loggedDiagnostic
          | .msg raw =>
            match decode raw with
            | some j => .delivered j
            | none => if hasOnError then .errorCb else .loggedDiagnostic
        let r := websocket_receive_loop decode hasOnError rest st
        (out :: r.1, r.2)
    else ([], st)

/-! ## Client constructors and API-key validation

All four constructors follow the pattern
`key = api_key or APIConfig.<PROVIDER>_API_KEY` followed by
`if not key: raise ValueError("<Provider> API key is required")`.
`os.getenv` yields `None` for an absent variable; Python's `or` and `not`
treat both `None` and the empty string as falsy. -/

/-- Python truthiness of an optional string: `None` and `""` are falsy. -/
def pyTruthy : Option String → Bool
  | none => false
  | some s => !(s = "")

/-- Python's `a or b` on optional strings. -/
def pyOr (a b : Option String) : Option String :=
  if pyTruthy a then a else b

/-- `key = api_key or <env value>; if not key: raise ValueError(msg)`,
as an `Except`: `.error msg` models the raised `ValueError` (construction
aborts, no client object is produced). -/
def requireKey (argKey envKey : Option String) (msg : String) :
    Except String String :=
  match pyOr argKey envKey with
  | none => .error msg
  | some s => if s = "" then .error msg else .ok s

/-- The state `BaseAPIClient.__init__` installs for the HTTP clients. -/
structure BaseAPIClientState where
  api_key : String
  base_url : String
  calls_per_minute : Nat
  deriving DecidableEq, Repr

/-- `TwelveDataClient.__init__` of the streaming client (td_client.py
lines 14–26): validated key plus the initial websocket state. -/
def td_stream_init (argKey envKey : Option String) :
    Except String (String × TDState) :=
  (requireKey argKey envKey "TwelveData API key is required").map
    (fun k => (k, initTDState))

/-- `TwelveDataClient.__init__` of the HTTP variant
(twelvedata_toolkit/client.py lines 9–23). -/
def td_http_init (argKey envKey : Option String) :
    Except String BaseAPIClientState :=
  (requireKey argKey envKey "TwelveData API key is required").map
    (fun k => ⟨k, TWELVEDATA_BASE_URL, TWELVEDATA_RATE_LIMIT⟩)

/-- `FinnhubClient.__init__` (finnhub_toolkit/client.py lines 9–28). -/
def finnhub_init (argKey envKey : Option String) :
    Except String BaseAPIClientState :=
  (requireKey argKey envKey "Finnhub API key is required").map
    (fun k => ⟨k, FINNHUB_BASE_URL, FINNHUB_RATE_LIMIT⟩)

/-- `AlphaVantageClient.__init__` (av_client.py lines 11–25). -/
def alphavantage_init (argKey envKey : Option String) :
    Except String BaseAPIClientState :=
  (requireKey argKey envKey "AlphaVantage API key is required").map
    (fun k => ⟨k, ALPHAVANTAGE_BASE_URL, ALPHAVANTAGE_RATE_LIMIT⟩)

/-! ## Helper lemmas -/

/-- For the fixed-window limiter, a sequence of calls that all arrive
inside the window currently anchored at `st.lastReset`, few enough that
the counter never exceeds `maxCalls`, is granted with every call at its
own arrival time — no call is delayed. -/
theorem fixedWindow_noDelay (maxCalls period : Nat) (ts : List Nat)
    (st : LimiterState)
    (hw : ∀ t ∈ ts, st.lastReset ≤ t ∧ t - st.lastReset < period)
    (hn : st.numCalls + ts.length ≤ maxCalls) :
    (runCalls maxCalls period ts st).1 = ts := by
  induction ts generalizing st with
  | nil => rfl
  | cons t ts ih =>
    obtain ⟨hle, hlt⟩ := hw t (List.mem_cons_self _ _)
    have h1 : ¬ period ≤ t - st.lastReset := Nat.not_le.mpr hlt
    have h2 : st.numCalls + 1 ≤ maxCalls := by
      have := hn; simp [List.length_cons] at this; omega
    simp only [runCalls, acquire, if_neg h1, if_pos h2]
    simp only [List.cons.injEq, true_and]
    apply ih
    · intro x hx; exact hw x (List.mem_cons_of_mem _ hx)
    · simp only [List.length_cons] at hn ⊢
      omega

/-- The body of the `start_websocket` receive loop mutates no client
state: whatever events are processed, the state afterwards is the state
before. -/
theorem websocket_receive_loop_state {J : Type} (decode : String → Option J)
    (hasOnError : Bool) (evs : List WsEvent) (st : TDState) :
    (websocket_receive_loop decode hasOnError evs st).2 = st := by
  induction evs with
  | nil =>
    by_cases h : st.running <;> simp [websocket_receive_loop, h]
  | cons e rest ih =>
    by_cases h : st.running <;> simp [websocket_receive_loop, h, ih]

/-! ## Claims -/

/-- C1: the spec claims the rate limiter never permits more than the
provider's configured `maxCallsPerWindow` (`calls_per_minute`, 5 per
minute for AlphaVantage) calls within any rolling `windowDuration`.  The
code contradicts its own configuration and docstrings: `_make_request`
is limited only by the hardcoded `@limits(calls=1, period=1)`, which
grants six back-to-back calls issued at seconds 0–5 immediately — six
grants inside the rolling 60-second window starting at 0, exceeding the
configured AlphaVantage limit of 5 per minute. -/
theorem c1_hardcoded_limiter_exceeds_config_window :
    (runCalls basic_limit_calls basic_limit_period [0, 1, 2, 3, 4, 5]
      ⟨0, 0⟩).1 = [0, 1, 2, 3, 4, 5]
    ∧ countInWindow [0, 1, 2, 3, 4, 5] 0 MINUTE_WINDOW = 6
    ∧ ALPHAVANTAGE_RATE_LIMIT < 6 := by
  refine ⟨by decide, by decide, by decide⟩

/-- C2 counterexample: `AlphaVantageClient.get_ipo_calendar` is a public
request method whose trace issues its HTTP request with no rate-limit
acquisition anywhere before it — it calls `self.session.get` directly,
skipping `_make_request` and its limiter decorators. -/
theorem c2_counterexample_ipo_calendar_bypasses_limiter :
    get_ipo_calendar_events "demo"
      = [.httpIssue ALPHAVANTAGE_BASE_URL
          [("function", "IPO_CALENDAR"), ("apikey", "demo")]]
    ∧ allIssuesAcquired false (get_ipo_calendar_events "demo") = false :=
  ⟨rfl, rfl⟩

/-- C2 amended: every request routed through `_make_request` passes
through the rate limiter's acquire step before being issued (so the
`_make_request`-backed public methods, e.g. AlphaVantage
`get_global_quote` and Finnhub `get_quote`, are rate limited), but the
three AlphaVantage CSV endpoints — `get_listing_status`,
`get_earnings_calendar`, `get_ipo_calendar` — issue their requests
directly via `session.get` and bypass the rate-limited path. -/
theorem c2_amended_make_request_acquires_csv_bypasses
    (base endpoint : String) (params : List (String × String))
    (k sym state horizon : String) (date symOpt : Option String) :
    allIssuesAcquired false (make_request_events base endpoint params) = true
    ∧ allIssuesAcquired false (get_global_quote_events k sym) = true
    ∧ allIssuesAcquired false (finnhub_get_quote_events sym) = true
    ∧ allIssuesAcquired false (get_listing_status_events k date state) = false
    ∧ allIssuesAcquired false
        (av_get_earnings_calendar_events k symOpt horizon) = false
    ∧ allIssuesAcquired false (get_ipo_calendar_events k) = false :=
  ⟨rfl, rfl, rfl, rfl, rfl, rfl⟩

/-- C3 counterexample: two back-to-back calls in the same second are a
sequence with N = 2 ≤ ALPHAVANTAGE_RATE_LIMIT = 5 inside one rate-limit
window, yet the hardcoded 1-call-per-second limiter delays the second
call: the grant times are `[0, 1]`, not the arrival times `[0, 0]`. -/
theorem c3_counterexample_second_call_delayed :
    2 ≤ ALPHAVANTAGE_RATE_LIMIT
    ∧ (runCalls basic_limit_calls basic_limit_period [0, 0] ⟨0, 0⟩).1 = [0, 1]
    ∧ (runCalls basic_limit_calls basic_limit_period [0, 0] ⟨0, 0⟩).1 ≠ [0, 0] := by
  refine ⟨by decide, by decide, by decide⟩

/-- C3 amended: with the limiter the code actually applies — the
hardcoded `@limits(calls=1, period=1)`, not the provider's
`calls_per_minute` — a sequence of N calls arriving within one limiter
window is delayed by no call as long as N (plus the calls already counted
in the window) stays within the hardcoded limit of 1 call per 1-second
period. -/
theorem c3_amended_no_delay_within_hardcoded_limit (ts : List Nat)
    (st : LimiterState)
    (hw : ∀ t ∈ ts, st.lastReset ≤ t ∧ t - st.lastReset < basic_limit_period)
    (hn : st.numCalls + ts.length ≤ basic_limit_calls) :
    (runCalls basic_limit_calls basic_limit_period ts st).1 = ts :=
  fixedWindow_noDelay basic_limit_calls basic_limit_period ts st hw hn

/-- C3 amended, witness: a single call arriving at second 7 into a fresh
window anchored at 7 is granted immediately. -/
theorem c3_amended_no_delay_witness :
    (runCalls basic_limit_calls basic_limit_period [7] ⟨7, 0⟩).1 = [7] :=
  c3_amended_no_delay_within_hardcoded_limit [7] ⟨7, 0⟩ (by decide) (by decide)

/-- C4 counterexample: a 304 response is non-2xx, yet `_make_request`
does not yield an `HttpStatus` failure for it: `raise_for_status` raises
only for 4xx/5xx, so the 304 body (here empty, hence undecodable) falls
through to JSON decoding and the call surfaces a `Decode` failure
instead. -/
theorem c4_counterexample_304_not_httpstatus :
    ¬ (200 ≤ 304 ∧ 304 < 300)
    ∧ toCallOutcome (make_request_outcome (fun _ => (none : Option Nat))
        (.response 304 "")) ≠ CallOutcome.failure .httpStatus
    ∧ toCallOutcome (make_request_outcome (fun _ => (none : Option Nat))
        (.response 304 "")) = CallOutcome.failure .decodeFailure := by
  refine ⟨by decide, by decide, by decide⟩

/-- C4 amended: for every request, `_make_request` classifies the outcome
exactly as the (amended) dispatcher contract says: a transport-level
failure surfaces as a `Transport` failure, a 4xx/5xx status as an
`HttpStatus` failure (the non-2xx statuses `raise_for_status` actually
covers), and any other response is decoded — the decoded structured body
on success, a `Decode` failure otherwise.  The classification is a total
function into `CallOutcome`: every failure is surfaced to the caller,
none is swallowed. -/
theorem c4_amended_dispatcher_classification (J : Type)
    (decode : String → Option J) (tr : TransportResult) :
    toCallOutcome (make_request_outcome decode tr)
      = dispatcherSpecOutcome decode tr := by
  cases tr with
  | transportError cause => rfl
  | response status body =>
    by_cases h : 400 ≤ status ∧ status < 600
    · simp [make_request_outcome, dispatcherSpecOutcome, h, toCallOutcome]
    · simp only [make_request_outcome, dispatcherSpecOutcome, if_neg h]
      cases decode body <;> rfl

/-- C5: the spec claims a peer-initiated close in Receiving drives the
session Receiving → Closing → Disconnected with `onError` invoked at most
once.  The code's blanket `except Exception` inside `while self._running`
catches the `ConnectionClosed` raised by every subsequent `recv`, invokes
`on_error`, and loops: after k failed receive attempts `on_error` has
fired k times and the state is unchanged — still connected, still
running, teardown never reached.  Evaluated at the failing input (a
Receiving session whose `recv` keeps raising because the peer closed). -/
theorem c5_peer_close_loops_repeating_onerror (k : Nat) :
    websocket_receive_loop (fun _ => (none : Option Nat)) true
      (List.replicate k .closedByPeer) ⟨some ⟨[]⟩, true⟩
      = (List.replicate k .errorCb, ⟨some ⟨[]⟩, true⟩) := by
  induction k with
  | zero => rfl
  | succ n ih =>
    simp only [List.replicate_succ, websocket_receive_loop, if_pos rfl]
    simp [ih]

/-- C6: a malformed inbound streaming message produces exactly one
`on_error` invocation (one diagnostic print when no `on_error` is
registered), the loop's client state is untouched — the session remains
in Receiving — and the following valid message is still decoded and
delivered to `on_message`, the remaining events being processed exactly
as they would have been. -/
theorem c6_malformed_message_isolated (J : Type) (decode : String → Option J)
    (hasOnError : Bool) (bad good : String) (j : J) (rest : List WsEvent)
    (st : TDState) (hrun : st.running = true) (hbad : decode bad = none)
    (hgood : decode good = some j) :
    websocket_receive_loop decode hasOnError (.msg bad :: .msg good :: rest) st
      = ((if hasOnError then .errorCb else .loggedDiagnostic)
          :: .delivered j
          :: (websocket_receive_loop decode hasOnError rest st).1, st) := by
  simp [websocket_receive_loop, hrun, hbad, hgood,
    websocket_receive_loop_state]

/-- C6 witness: with `json.loads` standing for a decoder accepting `"g"`
and rejecting `"b"`, a Receiving session processing `["b", "g"]` yields
one `on_error` invocation then the delivered payload, state unchanged. -/
theorem c6_malformed_message_isolated_witness :
    websocket_receive_loop (fun s => if s = "g" then some (7 : Nat) else none)
      true [.msg "b", .msg "g"] ⟨some ⟨[]⟩, true⟩
      = ([.errorCb, .delivered 7], ⟨some ⟨[]⟩, true⟩) := by
  simpa using c6_malformed_message_isolated Nat
    (fun s => if s = "g" then some (7 : Nat) else none) true "b" "g" 7 []
    ⟨some ⟨[]⟩, true⟩ rfl (by simp) (by simp)

/-- C7 counterexample: the client's entire mutable state is `(ws,
_running)` — there is no tracked desired-symbol set.  On a disconnected
session, `unsubscribe(["AAPL"])` returns without updating anything (the
whole state is unchanged), and closing a session after
`subscribe(["AAPL","MSFT"])` leaves the state exactly as freshly
constructed — nothing survives to be applied at the next connection.
This contradicts "subscribe and unsubscribe update a tracked
desired-symbol set regardless of connection state". -/
theorem c7_counterexample_unsubscribe_disconnected_noop :
    unsubscribe ["AAPL"] initTDState = initTDState
    ∧ close_websocket (subscribe ["AAPL", "MSFT"] initTDState) = initTDState :=
  ⟨rfl, rfl⟩

/-- C7 amended: starting from a fresh disconnected session,
`subscribe(["AAPL","MSFT"])` (which auto-connects first) followed by
`unsubscribe(["AAPL"])` leaves the net effect of the control messages
sent over the open connection — the only subscription set this client
has — equal to exactly `{"MSFT"}`; but no client-side desired-symbol set
is tracked: whenever no connection is open, `unsubscribe` is a no-op on
the client state. -/
theorem c7_amended_roundtrip_via_sent_messages :
    liveSymbols (unsubscribe ["AAPL"] (subscribe ["AAPL", "MSFT"] initTDState))
      = ["MSFT"]
    ∧ ∀ (syms : List String) (b : Bool),
        unsubscribe syms ⟨none, b⟩ = ⟨none, b⟩ :=
  ⟨by decide, fun _ _ => rfl⟩

/-- C8 counterexample: on a 2xx response whose body is not valid JSON,
`response.json()` raises `requests.exceptions.JSONDecodeError`, which is
a `RequestException` subclass (via `InvalidJSONError`, requests ≥ 2.27):
the `except requests.exceptions.RequestException` clause catches it and
logs it before re-raising — refuting the claim that the error escapes
that handler uncaught and unlogged (the outcome carries
`caughtAndLogged = true`, not `false`). -/
theorem c8_counterexample_decode_error_is_logged :
    make_request_outcome (fun _ => (none : Option Nat))
        (.response 200 "not json") ≠ .raisedJSONDecodeError false
    ∧ make_request_outcome (fun _ => (none : Option Nat))
        (.response 200 "not json") = .raisedJSONDecodeError true := by
  refine ⟨by decide, by decide⟩

/-- C8 amended: on a 2xx response whose body is not well-formed JSON, the
JSON decode error does escape `_make_request` unwrapped and unclassified
(no taxonomy `Failure` value is produced — the exception itself
propagates), but it is caught by the `RequestException` handler and
logged before being re-raised, because `requests.exceptions.
JSONDecodeError` subclasses `RequestException` since requests 2.27. -/
theorem c8_amended_decode_error_caught_logged_reraised (J : Type)
    (decode : String → Option J) (body : String) (hb : decode body = none) :
    make_request_outcome decode (.response 200 body)
      = .raisedJSONDecodeError true := by
  have h : ¬ (400 ≤ 200 ∧ 200 < 600) := by decide
  simp [make_request_outcome, h, hb]

/-- C8 amended, witness. -/
theorem c8_amended_decode_error_witness :
    make_request_outcome (fun _ => (none : Option Nat)) (.response 200 "x")
      = .raisedJSONDecodeError true :=
  c8_amended_decode_error_caught_logged_reraised Nat (fun _ => none) "x" rfl

/-- C9: `connect_websocket` on an already-connected session returns
immediately: no second connection is opened (`websockets.connect` is not
called) and the websocket handle and running flag are exactly as
before. -/
theorem c9_connect_websocket_idempotent_when_connected (st : TDState)
    (conn : WsConn) (h : st.ws = some conn) :
    connect_websocket st = (st, false) := by
  simp [connect_websocket, h]

/-- C9 witness: a connected running session is left untouched. -/
theorem c9_connect_websocket_idempotent_witness :
    connect_websocket ⟨some ⟨[]⟩, true⟩ = (⟨some ⟨[]⟩, true⟩, false) :=
  c9_connect_websocket_idempotent_when_connected ⟨some ⟨[]⟩, true⟩ ⟨[]⟩ rfl

/-- C10: every client constructor — the TwelveData streaming and HTTP
variants, Finnhub, and AlphaVantage — rejects construction with a
`ValueError` when no `api_key` argument is supplied and the
environment-derived value is absent (`None`) or empty (`""`): the result
is the raised error, and no client state is produced. -/
theorem c10_constructors_reject_missing_key :
    td_stream_init none none = .error "TwelveData API key is required"
    ∧ td_stream_init none (some "") = .error "TwelveData API key is required"
    ∧ td_http_init none none = .error "TwelveData API key is required"
    ∧ td_http_init none (some "") = .error "TwelveData API key is required"
    ∧ finnhub_init none none = .error "Finnhub API key is required"
    ∧ finnhub_init none (some "") = .error "Finnhub API key is required"
    ∧ alphavantage_init none none = .error "AlphaVantage API key is required"
    ∧ alphavantage_init none (some "")
        = .error "AlphaVantage API key is required" :=
  ⟨rfl, rfl, rfl, rfl, rfl, rfl, rfl, rfl⟩

end APIToolkits
